import Mathlib

/-!
Verification of the network subsystem of the smart-grind-by-weight-mqtt
repository: a shallow embedding of `WiFiManager`, `MQTTManager`, the
Bluetooth provisioning parser and the `UARTGateway` relay bridge, with
theorems settling the specification's claims.

Modelling conventions:
* Machine integers are `Nat`; `millis()` arithmetic on 32-bit unsigned
  longs is modelled explicitly modulo `2^32` (`millisElapsed`).
* Hardware and transport calls (`WiFi.status()`, `mqtt_client.connected()`,
  `mqtt_client.connect()`, `mqtt_client.publish()`) are black boxes per the
  spec; their outcomes enter as an environment record plus an oracle list of
  transport results consumed one per publish attempt (an empty oracle reads
  as failure).
* NVS persistent storage is a record of optional keys carried inside each
  manager state; a null `Preferences*` pointer is the `none` case.
* Callbacks are external observers: publish-result callback invocations are
  returned as explicit event lists (claim C4 is about them); status-callback
  invocations carry no state and are not tracked.
* Strings handled by the provisioning parser and the UART receive path are
  `List Char`, matching byte-by-byte processing of the source.
-/

/-- The modulus 2^32 of `unsigned long` (`millis()`) arithmetic on the ESP32. -/
def UINT32_MOD : Nat := 4294967296

/-- Wraparound-safe elapsed time `now - last` as computed by unsigned
32-bit subtraction in the source (`millis() - last_connection_attempt`). -/
def millisElapsed (now last : Nat) : Nat :=
  (now % UINT32_MOD + (UINT32_MOD - last % UINT32_MOD)) % UINT32_MOD

/-- src/config/network.h:20 -/
def WIFI_MAX_SSID_LENGTH : Nat := 32

/-- src/config/network.h:21 -/
def WIFI_MAX_PASSWORD_LENGTH : Nat := 64

/-- src/config/network.h:22 -/
def WIFI_CONNECTION_TIMEOUT_MS : Nat := 10000

/-- src/config/network.h:23 -/
def WIFI_RECONNECT_INTERVAL_MS : Nat := 5000

/-- src/config/network.h:24 -/
def WIFI_MAX_RECONNECT_INTERVAL_MS : Nat := 30000

/-- src/config/network.h:25 -/
def WIFI_MAX_RECONNECT_ATTEMPTS : Nat := 3

/-- src/config/network.h:30 -/
def MQTT_MAX_BROKER_LENGTH : Nat := 128

/-- src/config/network.h:31 -/
def MQTT_MAX_USERNAME_LENGTH : Nat := 64

/-- src/config/network.h:32 -/
def MQTT_MAX_PASSWORD_LENGTH : Nat := 64

/-- src/config/network.h:34 -/
def MQTT_DEFAULT_PORT : Nat := 1883

/-- src/config/network.h:35 -/
def MQTT_CONNECTION_TIMEOUT_MS : Nat := 10000

/-- src/config/network.h:37 -/
def MQTT_RECONNECT_INTERVAL_MS : Nat := 5000

/-- src/config/network.h:38 -/
def MQTT_MAX_RECONNECT_INTERVAL_MS : Nat := 30000

/-- src/config/network.h:40 -/
def MQTT_MAX_FAILED_PUBLISH_QUEUE : Nat := 10

/-- src/config/network.h:50 -/
def MQTT_RETAIN_SESSIONS : Bool := true

/-- The NVS key/value store (the out-of-scope `Preferences` collaborator):
each namespaced key used by the subsystem, independently durable. -/
structure Prefs where
  wifi_enabled : Option Bool := none
  wifi_ssid : Option String := none
  wifi_password : Option String := none
  mqtt_enabled : Option Bool := none
  mqtt_broker : Option String := none
  mqtt_port : Option Nat := none
  mqtt_username : Option String := none
  mqtt_password : Option String := none
deriving DecidableEq

/-- Embeds `WiFiConnectionStatus`, src/network/wifi_manager.h. -/
inductive WiFiConnectionStatus where
  | DISABLED
  | DISCONNECTED
  | CONNECTING
  | CONNECTED
  | ERROR
deriving DecidableEq

/-- The fields of `WiFiManager` (src/network/wifi_manager.h), with the NVS
store inlined (a `none` prefs is a null `Preferences*`). -/
structure WifiState where
  prefs : Option Prefs
  ssid : String
  password : String
  enabled : Bool
  status : WiFiConnectionStatus
  last_connection_attempt : Nat
  reconnect_interval : Nat
  reconnect_attempts : Nat
deriving DecidableEq

/-- The `WiFiManager()` constructor state (src/network/wifi_manager.cpp:3). -/
def wifiInitialState : WifiState :=
  { prefs := none, ssid := "", password := "", enabled := false,
    status := .DISABLED, last_connection_attempt := 0,
    reconnect_interval := WIFI_RECONNECT_INTERVAL_MS, reconnect_attempts := 0 }

/-- Embeds `WiFiManager::has_credentials` (src/network/wifi_manager.cpp:195). -/
def wifi_has_credentials (s : WifiState) : Bool :=
  s.ssid.length != 0 && s.password.length != 0

/-- Embeds `WiFiManager::update_status` (src/network/wifi_manager.cpp:269); the
guard only gates the (untracked) status callback. -/
def wifi_update_status (s : WifiState) (ns : WiFiConnectionStatus) : WifiState :=
  if s.status ≠ ns then { s with status := ns } else s

/-- Write of the `wifi_enabled` NVS key, guarded on a non-null store. -/
def wifiPrefsPutEnabled (s : WifiState) (b : Bool) : WifiState :=
  match s.prefs with
  | none => s
  | some p => { s with prefs := some { p with wifi_enabled := some b } }

/-- Write of the WiFi credential NVS keys, guarded on a non-null store. -/
def wifiPrefsPutCreds (s : WifiState) (i pw : String) : WifiState :=
  match s.prefs with
  | none => s
  | some p =>
      { s with prefs := some { p with wifi_ssid := some i, wifi_password := some pw } }

/-- Embeds `WiFiManager::connect` (src/network/wifi_manager.cpp:230): `WiFi.begin`
itself is a black box; the attempt is recorded in `last_connection_attempt`. -/
def wifi_connect (s : WifiState) (now : Nat) : WifiState :=
  if !(wifi_has_credentials s) then wifi_update_status s .ERROR
  else
    let s := wifi_update_status s .CONNECTING
    { s with last_connection_attempt := now % UINT32_MOD }

/-- Embeds `WiFiManager::enable` (src/network/wifi_manager.cpp:40). -/
def wifi_enable (s : WifiState) (now : Nat) : WifiState :=
  if s.enabled && s.status != .DISABLED then s
  else if !(wifi_has_credentials s) then wifi_update_status s .ERROR
  else
    let s := { s with enabled := true }
    let s := wifiPrefsPutEnabled s true
    let s := { s with reconnect_attempts := 0,
                      reconnect_interval := WIFI_RECONNECT_INTERVAL_MS }
    wifi_connect s now

/-- Embeds `WiFiManager::disable` (src/network/wifi_manager.cpp:72). -/
def wifi_disable (s : WifiState) : WifiState :=
  if !s.enabled then s
  else
    let s := { s with enabled := false }
    let s := wifiPrefsPutEnabled s false
    wifi_update_status s .DISABLED

/-- Embeds `WiFiManager::handle_reconnect` (src/network/wifi_manager.cpp:244). -/
def wifi_handle_reconnect (s : WifiState) (now : Nat) : WifiState :=
  if s.reconnect_attempts ≥ WIFI_MAX_RECONNECT_ATTEMPTS then
    wifi_update_status s .ERROR
  else if millisElapsed now s.last_connection_attempt < s.reconnect_interval then s
  else
    let s := { s with reconnect_attempts := s.reconnect_attempts + 1,
                      reconnect_interval :=
                        min (s.reconnect_interval * 2) WIFI_MAX_RECONNECT_INTERVAL_MS }
    wifi_connect s now

/-- Embeds `WiFiManager::handle` (src/network/wifi_manager.cpp:93); `wl_connected`
is the black-box `WiFi.status() == WL_CONNECTED` reading. -/
def wifi_handle (s : WifiState) (wl_connected : Bool) (now : Nat) : WifiState :=
  if !s.enabled then s
  else
    match s.status with
    | .DISABLED => s
    | .CONNECTING =>
        if wl_connected then
          let s := wifi_update_status s .CONNECTED
          { s with reconnect_attempts := 0,
                   reconnect_interval := WIFI_RECONNECT_INTERVAL_MS }
        else if millisElapsed now s.last_connection_attempt > WIFI_CONNECTION_TIMEOUT_MS then
          let s := wifi_update_status s .DISCONNECTED
          wifi_handle_reconnect s now
        else s
    | .CONNECTED =>
        if !wl_connected then
          let s := wifi_update_status s .DISCONNECTED
          let s := { s with reconnect_attempts := 0,
                            reconnect_interval := WIFI_RECONNECT_INTERVAL_MS }
          wifi_handle_reconnect s now
        else s
    | .DISCONNECTED => wifi_handle_reconnect s now
    | .ERROR => wifi_handle_reconnect s now

/-- Embeds `WiFiManager::set_credentials` (src/network/wifi_manager.cpp:140); a
null C string argument is subsumed by the empty-string case. -/
def wifi_set_credentials (s : WifiState) (new_ssid new_password : String) :
    Bool × WifiState :=
  if new_ssid.length = 0 then (false, s)
  else if new_password.length = 0 then (false, s)
  else if new_ssid.length > WIFI_MAX_SSID_LENGTH then (false, s)
  else if new_password.length > WIFI_MAX_PASSWORD_LENGTH then (false, s)
  else
    let s := { s with ssid := new_ssid, password := new_password }
    (true, wifiPrefsPutCreds s new_ssid new_password)

/-- Embeds `WiFiManager::init` (src/network/wifi_manager.cpp:19) with a non-null
`Preferences*` holding `store`: loads the enabled flag and credentials and
auto-enables when both are present. -/
def wifi_init (s : WifiState) (store : Prefs) (now : Nat) : WifiState :=
  let s := { s with prefs := some store }
  let s := { s with enabled := store.wifi_enabled.getD false }
  let s := { s with ssid := store.wifi_ssid.getD "",
                    password := store.wifi_password.getD "" }
  if s.enabled && wifi_has_credentials s then wifi_enable s now else s

/-- Embeds `MQTTConnectionStatus`, src/network/mqtt_manager.cpp. -/
inductive MQTTConnectionStatus where
  | DISABLED
  | DISCONNECTED
  | CONNECTING
  | CONNECTED
  | ERROR
deriving DecidableEq

/-- Embeds `MQTTPublishResult`, src/network/mqtt_manager.h:27. `FAILED` is the
spec's `Dropped` outcome for publishes. -/
inductive MQTTPublishResult where
  | SUCCESS
  | FAILED
  | QUEUED
deriving DecidableEq

/-- Embeds `PendingPublish`, src/network/mqtt_manager.h:36. -/
structure PendingPublish where
  topic : String
  payload : String
  retry_count : Nat
deriving DecidableEq

/-- A grind session as `publish_session` consumes it: the out-of-scope
serializer is pre-applied, so `json` is `serialize_session_to_json`'s
result (`none` when serialization fails). -/
structure GrindSession where
  session_id : Nat
  json : Option String
deriving DecidableEq

/-- One invocation of the publish-result callback
(`publish_callback(session_id, result)`). -/
structure PubEvent where
  session_id : Nat
  result : MQTTPublishResult
deriving DecidableEq

/-- Black-box readings of the hardware/transport collaborators during one
call: `WiFi.status() == WL_CONNECTED`, `mqtt_client.connected()`,
the outcome of `mqtt_client.connect(...)`, `mqtt_client.getBufferSize()`,
and the device id used for topics. -/
structure MQTTEnv where
  wifiConnected : Bool
  clientConnected : Bool
  connectResult : Bool
  bufferSize : Nat
  device_id : String
deriving DecidableEq

/-- The fields of `MQTTManager` (src/network/mqtt_manager.h:158), with the
NVS store inlined and the registered publish callback as a flag. -/
structure MQTTState where
  prefs : Option Prefs
  broker : String
  port : Nat
  username : String
  password : String
  enabled : Bool
  status : MQTTConnectionStatus
  last_connection_attempt : Nat
  reconnect_interval : Nat
  reconnect_attempts : Nat
  publish_queue : List PendingPublish
  has_publish_callback : Bool
deriving DecidableEq

/-- The `MQTTManager()` constructor state (src/network/mqtt_manager.cpp:3). -/
def mqttInitialState : MQTTState :=
  { prefs := none, broker := "", port := MQTT_DEFAULT_PORT, username := "",
    password := "", enabled := false, status := .DISABLED,
    last_connection_attempt := 0,
    reconnect_interval := MQTT_RECONNECT_INTERVAL_MS, reconnect_attempts := 0,
    publish_queue := [], has_publish_callback := false }

/-- Embeds `MQTTManager::has_broker_config` (src/network/mqtt_manager.cpp:286). -/
def mqtt_has_broker_config (s : MQTTState) : Bool :=
  s.broker.length != 0 && s.port != 0

/-- Embeds `MQTTManager::update_status` (src/network/mqtt_manager.cpp:470); the
guard only gates the (untracked) status callback. -/
def mqtt_update_status (s : MQTTState) (ns : MQTTConnectionStatus) : MQTTState :=
  if s.status ≠ ns then { s with status := ns } else s

/-- Write of the `mqtt_enabled` NVS key, guarded on a non-null store. -/
def mqttPrefsPutEnabled (s : MQTTState) (b : Bool) : MQTTState :=
  match s.prefs with
  | none => s
  | some p => { s with prefs := some { p with mqtt_enabled := some b } }

/-- Write of the broker-config NVS keys, guarded on a non-null store. -/
def mqttPrefsPutConfig (s : MQTTState) (b : String) (po : Nat) (u pw : String) :
    MQTTState :=
  match s.prefs with
  | none => s
  | some p =>
      { s with prefs := some { p with mqtt_broker := some b, mqtt_port := some po,
                                      mqtt_username := some u, mqtt_password := some pw } }

/-- Embeds `MQTTManager::publish` (src/network/mqtt_manager.cpp:455): fails when
the client is disconnected or the payload exceeds the client buffer,
otherwise consumes one transport outcome from the oracle (an exhausted
oracle reads as failure). The topic and retain flag do not influence the
modelled outcome but are kept for the source's signature. -/
def mqtt_publish (connected : Bool) (bufferSize : Nat) (oracle : List Bool)
    (_topic _payload : String) (_retain : Bool) : Bool × List Bool :=
  if !connected then (false, oracle)
  else if _payload.length > bufferSize then (false, oracle)
  else
    match oracle with
    | [] => (false, [])
    | b :: rest => (b, rest)

/-- Embeds `MQTTManager::build_session_topic` (src/network/mqtt_manager.cpp:508),
`MQTT_TOPIC_PATTERN` instantiated (the formatted topic is far below the
128-byte truncation bound for real device ids). -/
def build_session_topic (device_id : String) (session_id : Nat) : String :=
  "grinder/" ++ device_id ++ "/sessions/" ++ toString session_id

/-- Embeds `MQTT_WILL_TOPIC_PATTERN` instantiated (src/config/network.h:44). -/
def build_will_topic (device_id : String) : String :=
  "grinder/" ++ device_id ++ "/status"

/-- Embeds `MQTTManager::connect` (src/network/mqtt_manager.cpp:350). After a
successful client connect the online presence message is published (its
oracle consumption is kept; the client is connected at that point). The
status remains `CONNECTING`; promotion to `CONNECTED` happens in `handle`. -/
def mqtt_connect (s : MQTTState) (env : MQTTEnv) (now : Nat) (oracle : List Bool) :
    MQTTState × List Bool :=
  if !(mqtt_has_broker_config s) then (mqtt_update_status s .ERROR, oracle)
  else if !env.wifiConnected then (mqtt_update_status s .ERROR, oracle)
  else
    let s := mqtt_update_status s .CONNECTING
    let s := { s with last_connection_attempt := now % UINT32_MOD }
    if env.connectResult then
      let r := mqtt_publish true env.bufferSize oracle
                 (build_will_topic env.device_id) "online" true
      (s, r.2)
    else (s, oracle)

/-- Embeds `MQTTManager::enable` (src/network/mqtt_manager.cpp:44). -/
def mqtt_enable (s : MQTTState) (env : MQTTEnv) (now : Nat) (oracle : List Bool) :
    MQTTState × List Bool :=
  if s.enabled && s.status != .DISABLED then (s, oracle)
  else if !(mqtt_has_broker_config s) then (mqtt_update_status s .ERROR, oracle)
  else if !env.wifiConnected then (mqtt_update_status s .ERROR, oracle)
  else
    let s := { s with enabled := true }
    let s := mqttPrefsPutEnabled s true
    let s := { s with reconnect_attempts := 0,
                      reconnect_interval := MQTT_RECONNECT_INTERVAL_MS }
    mqtt_connect s env now oracle

/-- Embeds `MQTTManager::disable` (src/network/mqtt_manager.cpp:84). -/
def mqtt_disable (s : MQTTState) : MQTTState :=
  if !s.enabled then s
  else
    let s := { s with enabled := false }
    let s := mqttPrefsPutEnabled s false
    let s := mqtt_update_status s .DISABLED
    { s with publish_queue := [] }

/-- Embeds `MQTTManager::handle_reconnect` (src/network/mqtt_manager.cpp:401):
unlike the WiFi manager there is no attempt ceiling. -/
def mqtt_handle_reconnect (s : MQTTState) (env : MQTTEnv) (now : Nat)
    (oracle : List Bool) : MQTTState × List Bool :=
  if millisElapsed now s.last_connection_attempt < s.reconnect_interval then (s, oracle)
  else
    let s := { s with reconnect_attempts := s.reconnect_attempts + 1,
                      reconnect_interval :=
                        min (s.reconnect_interval * 2) MQTT_MAX_RECONNECT_INTERVAL_MS }
    mqtt_connect s env now oracle

/-- The loop body of `MQTTManager::process_publish_queue`
(src/network/mqtt_manager.cpp:426-452), fuel = `max_per_cycle - processed`:
pop on success; on failure increment the front's retry counter and either
drop it (counter at the ceiling 3) or move it to the back. -/
def ppq_loop : Nat → List PendingPublish → Bool → Nat → List Bool →
    List PendingPublish × List Bool
  | 0, q, _, _, oracle => (q, oracle)
  | _ + 1, [], _, _, oracle => ([], oracle)
  | fuel + 1, p :: rest, connected, bufSize, oracle =>
      let r := mqtt_publish connected bufSize oracle p.topic p.payload MQTT_RETAIN_SESSIONS
      if r.1 then ppq_loop fuel rest connected bufSize r.2
      else if p.retry_count + 1 ≥ 3 then ppq_loop fuel rest connected bufSize r.2
      else ppq_loop fuel (rest ++ [{ p with retry_count := p.retry_count + 1 }])
             connected bufSize r.2

/-- Embeds `MQTTManager::process_publish_queue` (src/network/mqtt_manager.cpp:417)
with `max_per_cycle = 3`. The third component is the trace of
publish-result callback invocations made while draining: the source
contains no `publish_callback` call site in this function (queued entries
do not even record a session id), so the trace is empty. -/
def process_publish_queue (s : MQTTState) (env : MQTTEnv) (oracle : List Bool) :
    MQTTState × List Bool × List PubEvent :=
  if s.status != .CONNECTED then (s, oracle, [])
  else
    let r := ppq_loop 3 s.publish_queue env.clientConnected env.bufferSize oracle
    ({ s with publish_queue := r.1 }, r.2, [])

/-- Embeds `MQTTManager::handle` (src/network/mqtt_manager.cpp:111); the third
component is the trace of publish-result callback invocations, which can
only come from `process_publish_queue` (no other callee has a call site). -/
def mqtt_handle (s : MQTTState) (env : MQTTEnv) (now : Nat) (oracle : List Bool) :
    MQTTState × List Bool × List PubEvent :=
  if !s.enabled then (s, oracle, [])
  else if !env.wifiConnected then
    ((if s.status ≠ .ERROR then mqtt_update_status s .ERROR else s), oracle, [])
  else
    match s.status with
    | .DISABLED => (s, oracle, [])
    | .CONNECTING =>
        if env.clientConnected then
          let s := mqtt_update_status s .CONNECTED
          let s := { s with reconnect_attempts := 0,
                            reconnect_interval := MQTT_RECONNECT_INTERVAL_MS }
          process_publish_queue s env oracle
        else if millisElapsed now s.last_connection_attempt > MQTT_CONNECTION_TIMEOUT_MS then
          let s := mqtt_update_status s .DISCONNECTED
          let r := mqtt_handle_reconnect s env now oracle
          (r.1, r.2, [])
        else (s, oracle, [])
    | .CONNECTED =>
        if !env.clientConnected then
          let s := mqtt_update_status s .DISCONNECTED
          let s := { s with reconnect_attempts := 0,
                            reconnect_interval := MQTT_RECONNECT_INTERVAL_MS }
          let r := mqtt_handle_reconnect s env now oracle
          (r.1, r.2, [])
        else process_publish_queue s env oracle
    | .DISCONNECTED =>
        let r := mqtt_handle_reconnect s env now oracle
        (r.1, r.2, [])
    | .ERROR =>
        let r := mqtt_handle_reconnect s env now oracle
        (r.1, r.2, [])

/-- The publish-result callback invocation of one `publish_callback(id, r)`
call site, guarded on a registered callback as in the source. -/
def pubEvents (s : MQTTState) (id : Nat) (r : MQTTPublishResult) : List PubEvent :=
  if s.has_publish_callback then [⟨id, r⟩] else []

/-- The enqueue decision of `MQTTManager::publish_session`
(src/network/mqtt_manager.cpp:261-275): queue when below capacity, else
refuse with `FAILED` (the spec's `Dropped`). -/
def publish_session_enqueue (s : MQTTState) (id : Nat) (topic payload : String)
    (oracle : List Bool) :
    MQTTPublishResult × MQTTState × List Bool × List PubEvent :=
  if s.publish_queue.length < MQTT_MAX_FAILED_PUBLISH_QUEUE then
    (.QUEUED,
     { s with publish_queue := s.publish_queue ++ [⟨topic, payload, 0⟩] },
     oracle, pubEvents s id .QUEUED)
  else
    (.FAILED, s, oracle, pubEvents s id .FAILED)

/-- Embeds `MQTTManager::publish_session` (src/network/mqtt_manager.cpp:222);
`none` is a null session pointer. Returns the result, the new state, the
remaining oracle and the publish-result callback invocations. -/
def publish_session (s : MQTTState) (env : MQTTEnv) (oracle : List Bool)
    (session : Option GrindSession) :
    MQTTPublishResult × MQTTState × List Bool × List PubEvent :=
  match session with
  | none => (.FAILED, s, oracle, [])
  | some sess =>
      if !s.enabled then (.FAILED, s, oracle, [])
      else
        match sess.json with
        | none => (.FAILED, s, oracle, [])
        | some payload =>
            let topic := build_session_topic env.device_id sess.session_id
            if s.status = .CONNECTED then
              let r := mqtt_publish env.clientConnected env.bufferSize oracle
                         topic payload MQTT_RETAIN_SESSIONS
              if r.1 then
                (.SUCCESS, s, r.2, pubEvents s sess.session_id .SUCCESS)
              else publish_session_enqueue s sess.session_id topic payload r.2
            else publish_session_enqueue s sess.session_id topic payload oracle

/-- Embeds `MQTTManager::set_broker_config` (src/network/mqtt_manager.cpp:175). -/
def mqtt_set_broker_config (s : MQTTState) (nb : String) (np : Nat) (nu npw : String) :
    Bool × MQTTState :=
  if nb.length = 0 then (false, s)
  else if np = 0 then (false, s)
  else if nb.length > MQTT_MAX_BROKER_LENGTH then (false, s)
  else if nu.length > MQTT_MAX_USERNAME_LENGTH then (false, s)
  else if npw.length > MQTT_MAX_PASSWORD_LENGTH then (false, s)
  else
    let s := { s with broker := nb, port := np, username := nu, password := npw }
    (true, mqttPrefsPutConfig s nb np nu npw)

/-- Embeds `MQTTManager::clear_broker_config` (src/network/mqtt_manager.cpp:290). -/
def mqtt_clear_broker_config (s : MQTTState) : MQTTState :=
  let s := { s with broker := "", port := MQTT_DEFAULT_PORT,
                    username := "", password := "" }
  let s :=
    match s.prefs with
    | none => s
    | some p =>
        { s with prefs := some { p with mqtt_broker := none, mqtt_port := none,
                                        mqtt_username := none, mqtt_password := none } }
  if s.enabled then mqtt_disable s else s

/-- Embeds `MQTTManager::test_connection` (src/network/mqtt_manager.cpp:310): a
pure observation, the manager state is untouched. -/
def mqtt_test_connection (s : MQTTState) (env : MQTTEnv) (oracle : List Bool) :
    Bool × List Bool :=
  if s.status ≠ .CONNECTED then (false, oracle)
  else mqtt_publish env.clientConnected env.bufferSize oracle
         (build_will_topic env.device_id) "online" false

/-- Embeds `MQTTManager::init` (src/network/mqtt_manager.cpp:25) with a non-null
`Preferences*` holding `store`; MQTT is never auto-enabled here. -/
def mqtt_init (s : MQTTState) (store : Prefs) : MQTTState :=
  let s := { s with prefs := some store }
  let s := { s with enabled := store.mqtt_enabled.getD false }
  { s with broker := store.mqtt_broker.getD "",
           port := store.mqtt_port.getD MQTT_DEFAULT_PORT,
           username := store.mqtt_username.getD "",
           password := store.mqtt_password.getD "" }

/-- One invocation of a public state-mutating entry point of `MQTTManager`,
with the black-box inputs it consumes. -/
inductive MQTTOp where
  | init (store : Prefs)
  | enable (env : MQTTEnv) (now : Nat) (oracle : List Bool)
  | disable
  | handle (env : MQTTEnv) (now : Nat) (oracle : List Bool)
  | setBrokerConfig (b : String) (p : Nat) (u pw : String)
  | clearBrokerConfig
  | publishSession (env : MQTTEnv) (oracle : List Bool) (session : Option GrindSession)
  | testConnection (env : MQTTEnv) (oracle : List Bool)

/-- The state transition of one `MQTTManager` public call
(`test_connection` does not mutate the manager). -/
def mqtt_step (s : MQTTState) : MQTTOp → MQTTState
  | .init store => mqtt_init s store
  | .enable env now oracle => (mqtt_enable s env now oracle).1
  | .disable => mqtt_disable s
  | .handle env now oracle => (mqtt_handle s env now oracle).1
  | .setBrokerConfig b p u pw => (mqtt_set_broker_config s b p u pw).2
  | .clearBrokerConfig => mqtt_clear_broker_config s
  | .publishSession env oracle session => (publish_session s env oracle session).2.1
  | .testConnection _ _ => s

/-- Whitespace per C `isspace`, used by Arduino `String::trim`. -/
def isSpaceChar (c : Char) : Bool :=
  c = ' ' || c = '\t' || c = '\n' || c = Char.ofNat 11 || c = Char.ofNat 12 || c = '\r'

/-- Arduino `String::trim`: strip `isspace` characters from both ends. -/
def trimChars (l : List Char) : List Char :=
  ((l.dropWhile isSpaceChar).reverse.dropWhile isSpaceChar).reverse

/-- Helper of `index_of`: first index of `target` at or after position `i`. -/
def index_of_from : List Char → Char → Nat → Option Nat
  | [], _, _ => none
  | c :: cs, target, i =>
      if c = target then some i else index_of_from cs target (i + 1)

/-- Arduino `String::indexOf`: index of the first occurrence, `-1` if absent. -/
def index_of (l : List Char) (target : Char) : Int :=
  match index_of_from l target 0 with
  | some i => (i : Int)
  | none => -1

/-- Digit-accumulating core of C `atol` (overflow of `long` is irrelevant at
the port magnitudes the subsystem handles). -/
def atolCore : List Char → Nat → Nat
  | [], acc => acc
  | c :: cs, acc =>
      if c.isDigit then atolCore cs (acc * 10 + (c.toNat - 48)) else acc

/-- Arduino `String::toInt` (C `atol`): skip leading whitespace, optional
sign, then digits up to the first non-digit; no digits give `0`. -/
def stringToInt (l : List Char) : Int :=
  let t := l.dropWhile isSpaceChar
  match t with
  | '-' :: rest => -(atolCore rest 0 : Int)
  | '+' :: rest => (atolCore rest 0 : Int)
  | _ => (atolCore t 0 : Int)

/-- Embeds `NetworkConfigService::parse_mqtt_config`
(src/bluetooth/network_config_service.cpp:213) over the characters of the
input: `host:port|username|password`, with the conversion of the parsed
port to `uint16_t` modelled modulo 65536. Returns
`(broker, port, username, password)` on success. -/
def parse_mqtt_config (input : List Char) :
    Option (List Char × Nat × List Char × List Char) :=
  let sep := index_of input '|'
  if sep ≤ 0 then none
  else
    let sepN := sep.toNat
    let broker_part := input.take sepN
    let colon := index_of broker_part ':'
    if colon ≤ 0 then none
    else
      let colonN := colon.toNat
      let broker0 := broker_part.take colonN
      let port_str := broker_part.drop (colonN + 1)
      let port := ((stringToInt port_str) % 65536).toNat
      if port = 0 then none
      else
        let creds_part := input.drop (sepN + 1)
        let creds_sep := index_of creds_part '|'
        let username0 :=
          if creds_sep ≥ 0 then creds_part.take creds_sep.toNat else creds_part
        let password0 :=
          if creds_sep ≥ 0 then creds_part.drop (creds_sep.toNat + 1) else []
        let broker := trimChars broker0
        let username := trimChars username0
        let password := trimChars password0
        if broker = [] then none
        else some (broker, port, username, password)

/-- src/network/uart_gateway.cpp:5 -/
def STATUS_REQUEST_INTERVAL_MS : Nat := 10000

/-- src/network/uart_gateway.cpp:6 -/
def MAX_RX_BUFFER_SIZE : Nat := 512

/-- One received byte of `UARTGateway::handle`'s read loop
(src/network/uart_gateway.cpp:140-159): a newline delivers a non-empty
buffer to `parse_response` and clears it; carriage returns are skipped;
any other byte is appended while the buffer stays below
`MAX_RX_BUFFER_SIZE - 1`, and otherwise the whole buffer (and the byte)
is discarded. Returns the new buffer and the delivered lines. -/
def rx_step (buf : List Char) (c : Char) : List Char × List (List Char) :=
  if c = '\n' then
    if buf.length > 0 then ([], [buf]) else (buf, [])
  else if c = '\r' then (buf, [])
  else if buf.length < MAX_RX_BUFFER_SIZE - 1 then (buf ++ [c], [])
  else ([], [])

/-- The receive loop folded over an incoming byte sequence (the source's
256-bytes-per-call cap only splits the same per-byte processing across
ticks; the buffer and the delivered lines are identical). -/
def rx_feed (buf : List Char) : List Char → List Char × List (List Char)
  | [] => (buf, [])
  | c :: cs =>
      let r := rx_step buf c
      let rest := rx_feed r.1 cs
      (rest.1, r.2 ++ rest.2)

/-- The fields of `UARTGateway` (src/network/uart_gateway.h) that the
relay-bridge claims concern; the connectivity cache written by
`parse_response`'s JSON interpretation is outside the modelled boundary. -/
structure UartState where
  initialized : Bool
  last_status_request : Nat
  rx_buffer : List Char
deriving DecidableEq

/-- Embeds `UARTGateway::handle` (src/network/uart_gateway.cpp:126): drains the
receive path, delivering complete lines to `parse_response`. The periodic
status request of lines 162-169 is commented out in the source
("TEMPORARILY DISABLED for debugging"), so `handle` ignores `_now`,
transmits nothing, and never touches `last_status_request`;
`request_status` (lines 109-124) has no caller in `handle`. Returns the
new state, the delivered lines, and the transmitted frames. -/
def uart_handle (s : UartState) (input : List Char) (_now : Nat) :
    UartState × List (List Char) × List (List Char) :=
  if !s.initialized then (s, [], [])
  else
    let r := rx_feed s.rx_buffer input
    ({ s with rx_buffer := r.1 }, r.2, [])

theorem wifi_update_status_eq (s : WifiState) (ns : WiFiConnectionStatus) :
    wifi_update_status s ns = { s with status := ns } := by
  unfold wifi_update_status
  split
  · rfl
  · next h =>
      rw [not_ne_iff] at h
      cases s
      simp_all

theorem mqtt_update_status_eq (s : MQTTState) (ns : MQTTConnectionStatus) :
    mqtt_update_status s ns = { s with status := ns } := by
  unfold mqtt_update_status
  split
  · rfl
  · next h =>
      rw [not_ne_iff] at h
      cases s
      simp_all

theorem wifi_disable_enabled_false (s : WifiState) : (wifi_disable s).enabled = false := by
  unfold wifi_disable wifiPrefsPutEnabled
  by_cases h : s.enabled
  · simp only [h, Bool.not_true, Bool.false_eq_true, if_false]
    split <;> rw [wifi_update_status_eq]
  · simp [h]

theorem wifi_disable_not_enabled (s : WifiState) (h : s.enabled = false) :
    wifi_disable s = s := by
  unfold wifi_disable
  simp [h]

theorem mqtt_disable_enabled_false (s : MQTTState) : (mqtt_disable s).enabled = false := by
  unfold mqtt_disable mqttPrefsPutEnabled
  by_cases h : s.enabled
  · simp only [h, Bool.not_true, Bool.false_eq_true, if_false]
    split <;> rw [mqtt_update_status_eq]
  · simp [h]

theorem mqtt_disable_not_enabled (s : MQTTState) (h : s.enabled = false) :
    mqtt_disable s = s := by
  unfold mqtt_disable
  simp [h]

/-- C9: for every SSID longer than 32 characters or password longer than 64
characters, and for every empty SSID or password, `set_credentials` returns
invalid (`false`) and leaves the whole manager state — stored SSID,
password, status, enabled flag and persisted NVS values — untouched. -/
theorem wifi_set_credentials_rejects_and_preserves (s : WifiState) (i pw : String)
    (h : i.length = 0 ∨ pw.length = 0 ∨ i.length > WIFI_MAX_SSID_LENGTH ∨
         pw.length > WIFI_MAX_PASSWORD_LENGTH) :
    wifi_set_credentials s i pw = (false, s) := by
  unfold wifi_set_credentials
  split
  · rfl
  · split
    · rfl
    · split
      · rfl
      · split
        · rfl
        · omega

theorem wifi_set_credentials_rejects_witness :
    ("del6789012345678901234567890123456789" : String).length > WIFI_MAX_SSID_LENGTH ∧
    wifi_set_credentials wifiInitialState "del6789012345678901234567890123456789" "pw" =
      (false, wifiInitialState) :=
  ⟨by decide,
   wifi_set_credentials_rejects_and_preserves wifiInitialState _ _ (by right; right; left; decide)⟩

/-- C5 (amended): from any state with the enabled flag set, `disable()`
leaves the component with status `Disabled` (and, for the MQTT manager, an
empty retry queue), and a second `disable()` is a no-op (idempotence holds
for every state). From a state with the enabled flag clear — in particular
one reached through a failed `enable()` that left status `Error` —
`disable()` returns early and leaves the status unchanged. -/
theorem disable_from_enabled_and_idempotent :
    (∀ s : WifiState, s.enabled = true → (wifi_disable s).status = .DISABLED) ∧
    (∀ s : WifiState, wifi_disable (wifi_disable s) = wifi_disable s) ∧
    (∀ s : MQTTState, s.enabled = true →
       (mqtt_disable s).status = .DISABLED ∧ (mqtt_disable s).publish_queue = []) ∧
    (∀ s : MQTTState, mqtt_disable (mqtt_disable s) = mqtt_disable s) ∧
    (∀ s : WifiState, s.enabled = false → wifi_disable s = s) ∧
    (∀ s : MQTTState, s.enabled = false → mqtt_disable s = s) := by
  refine ⟨?_, ?_, ?_, ?_, ?_, ?_⟩
  · intro s h
    unfold wifi_disable wifiPrefsPutEnabled
    simp only [h, Bool.not_true, Bool.false_eq_true, if_false]
    split <;> rw [wifi_update_status_eq]
  · intro s
    exact wifi_disable_not_enabled _ (wifi_disable_enabled_false s)
  · intro s h
    unfold mqtt_disable mqttPrefsPutEnabled
    simp only [h, Bool.not_true, Bool.false_eq_true, if_false]
    refine ⟨?_, ?_⟩ <;> first
      | trivial
      | (split <;> simp [mqtt_update_status_eq])
  · intro s
    exact mqtt_disable_not_enabled _ (mqtt_disable_enabled_false s)
  · exact wifi_disable_not_enabled
  · exact mqtt_disable_not_enabled

theorem disable_from_enabled_witness :
    (wifi_disable { wifiInitialState with ssid := "s", password := "p", enabled := true }).status
      = .DISABLED ∧
    mqtt_disable (mqtt_disable mqttInitialState) = mqtt_disable mqttInitialState :=
  ⟨disable_from_enabled_and_idempotent.1 _ rfl,
   disable_from_enabled_and_idempotent.2.2.2.1 mqttInitialState⟩

/-- C5 counterexample: a failed `enable()` on a fresh WiFi manager (no
credentials) leaves status `Error` with the enabled flag still clear; the
following `disable()` returns early ("Already disabled") and the status
stays `Error`, not `Disabled` — refuting the claim for states reached
through a failed `enable()`. -/
theorem disable_after_failed_enable_counterexample :
    (wifi_enable wifiInitialState 0).enabled = false ∧
    (wifi_enable wifiInitialState 0).status = .ERROR ∧
    (wifi_disable (wifi_enable wifiInitialState 0)).status = .ERROR ∧
    (wifi_disable (wifi_enable wifiInitialState 0)).status ≠ .DISABLED := by
  decide

/-- C10 (amended): when `enable()`'s precondition fails (WiFi manager with
no credentials; MQTT manager with no broker config or with WiFi not
connected) and the already-enabled early return is not taken, `enable()`
changes only the status field (to `Error`): the enabled flag is unchanged
(it stays `false` whenever it was `false`, but is left `true` in the
NVS-restored `enabled ∧ status = Disabled` corner), nothing is written to
persistent storage, no connection attempt is started, and the
credentials/config and reconnect state are unchanged. -/
theorem enable_failed_precondition_frame :
    (∀ (s : WifiState) (now : Nat),
       (s.enabled = false ∨ s.status = .DISABLED) →
       wifi_has_credentials s = false →
       wifi_enable s now = { s with status := .ERROR }) ∧
    (∀ (s : MQTTState) (env : MQTTEnv) (now : Nat) (oracle : List Bool),
       (s.enabled = false ∨ s.status = .DISABLED) →
       (mqtt_has_broker_config s = false ∨ env.wifiConnected = false) →
       mqtt_enable s env now oracle = ({ s with status := .ERROR }, oracle)) := by
  constructor
  · intro s now hguard hcred
    unfold wifi_enable
    have hg : (s.enabled && s.status != .DISABLED) = false := by
      rcases hguard with h | h <;> simp [h]
    rw [hg]
    simp only [Bool.false_eq_true, if_false, hcred, Bool.not_false, if_true]
    exact wifi_update_status_eq s .ERROR
  · intro s env now oracle hguard hpre
    unfold mqtt_enable
    have hg : (s.enabled && s.status != .DISABLED) = false := by
      rcases hguard with h | h <;> simp [h]
    rw [hg]
    simp only [Bool.false_eq_true, if_false]
    rcases hpre with h | h
    · simp only [h, Bool.not_false, if_true]
      rw [mqtt_update_status_eq]
    · by_cases hc : mqtt_has_broker_config s
      · simp [hc, h, mqtt_update_status_eq]
      · simp only [Bool.not_eq_true] at hc
        simp [hc, mqtt_update_status_eq]

theorem enable_failed_precondition_witness :
    wifi_enable wifiInitialState 0 = { wifiInitialState with status := .ERROR } :=
  enable_failed_precondition_frame.1 wifiInitialState 0 (Or.inl rfl) rfl

/-- C10 counterexample: restoring `wifi_enabled = true` from NVS with no
stored credentials yields the reachable state `enabled = true`,
`status = Disabled`, no credentials; `enable()`'s precondition fails there,
yet the enabled flag ends `true`, refuting "the enabled flag stays false". -/
theorem enable_failed_precondition_counterexample :
    (wifi_init wifiInitialState { wifi_enabled := some true } 0).enabled = true ∧
    (wifi_init wifiInitialState { wifi_enabled := some true } 0).status = .DISABLED ∧
    wifi_has_credentials (wifi_init wifiInitialState { wifi_enabled := some true } 0) = false ∧
    (wifi_enable (wifi_init wifiInitialState { wifi_enabled := some true } 0) 0).status = .ERROR ∧
    (wifi_enable (wifi_init wifiInitialState { wifi_enabled := some true } 0) 0).enabled = true := by
  decide

/-- C8: the relay bridge's periodic tick never sends the status-query
frame, no matter how much time has elapsed since the last status request —
the periodic-request block of `UARTGateway::handle`
(src/network/uart_gateway.cpp:162-169) is commented out ("TEMPORARILY
DISABLED for debugging"), so `handle` transmits nothing and leaves
`last_status_request` untouched; in particular a tick at 20000 ms with the
last request at 0 ms (elapsed 20000 ms > 10000 ms) sends no frame. -/
theorem uart_handle_never_requests_status :
    (∀ (s : UartState) (input : List Char) (now : Nat),
       (uart_handle s input now).2.2 = [] ∧
       (uart_handle s input now).1.last_status_request = s.last_status_request) ∧
    millisElapsed 20000 0 > STATUS_REQUEST_INTERVAL_MS ∧
    (uart_handle { initialized := true, last_status_request := 0, rx_buffer := [] } [] 20000).2.2
      = [] := by
  refine ⟨?_, by decide, by decide⟩
  intro s input now
  unfold uart_handle
  by_cases h : s.initialized <;> simp [h]

theorem mqtt_connect_queue (s : MQTTState) (env : MQTTEnv) (now : Nat) (oracle : List Bool) :
    (mqtt_connect s env now oracle).1.publish_queue = s.publish_queue := by
  unfold mqtt_connect
  split
  · rw [mqtt_update_status_eq]
  · split
    · rw [mqtt_update_status_eq]
    · simp only [mqtt_update_status_eq]
      split <;> rfl

theorem mqtt_handle_reconnect_queue (s : MQTTState) (env : MQTTEnv) (now : Nat)
    (oracle : List Bool) :
    (mqtt_handle_reconnect s env now oracle).1.publish_queue = s.publish_queue := by
  unfold mqtt_handle_reconnect
  split
  · rfl
  · rw [mqtt_connect_queue]

theorem mqttPrefsPutEnabled_queue (s : MQTTState) (b : Bool) :
    (mqttPrefsPutEnabled s b).publish_queue = s.publish_queue := by
  unfold mqttPrefsPutEnabled
  split <;> rfl

theorem mqtt_enable_queue (s : MQTTState) (env : MQTTEnv) (now : Nat) (oracle : List Bool) :
    (mqtt_enable s env now oracle).1.publish_queue = s.publish_queue := by
  unfold mqtt_enable
  split
  · rfl
  · split
    · rw [mqtt_update_status_eq]
    · split
      · rw [mqtt_update_status_eq]
      · simp only [mqtt_connect_queue, mqttPrefsPutEnabled_queue]

theorem ppq_loop_length_le : ∀ (fuel : Nat) (q : List PendingPublish) (c : Bool) (b : Nat)
    (oracle : List Bool), (ppq_loop fuel q c b oracle).1.length ≤ q.length := by
  intro fuel
  induction fuel with
  | zero => intro q c b oracle; simp [ppq_loop]
  | succ n ih =>
      intro q c b oracle
      cases q with
      | nil => simp [ppq_loop]
      | cons p rest =>
          simp only [ppq_loop]
          split
          · exact le_trans (ih rest c b _) (by simp)
          · split
            · exact le_trans (ih rest c b _) (by simp)
            · have h := ih (rest ++ [{ p with retry_count := p.retry_count + 1 }]) c b
                (mqtt_publish c b oracle p.topic p.payload MQTT_RETAIN_SESSIONS).2
              simpa using h

theorem process_publish_queue_length_le (s : MQTTState) (env : MQTTEnv) (oracle : List Bool) :
    (process_publish_queue s env oracle).1.publish_queue.length ≤ s.publish_queue.length := by
  unfold process_publish_queue
  split
  · exact le_refl _
  · simpa using ppq_loop_length_le 3 s.publish_queue env.clientConnected env.bufferSize oracle

theorem mqtt_handle_queue_le (s : MQTTState) (env : MQTTEnv) (now : Nat) (oracle : List Bool) :
    (mqtt_handle s env now oracle).1.publish_queue.length ≤ s.publish_queue.length := by
  unfold mqtt_handle
  split
  · exact le_refl _
  · split
    · split <;> simp [mqtt_update_status_eq]
    · split
      · exact le_refl _
      · split
        · refine le_trans (process_publish_queue_length_le _ env oracle) ?_
          simp [mqtt_update_status_eq]
        · split
          · simp [mqtt_handle_reconnect_queue, mqtt_update_status_eq]
          · exact le_refl _
      · split
        · simp [mqtt_handle_reconnect_queue, mqtt_update_status_eq]
        · refine le_trans (process_publish_queue_length_le _ env oracle) ?_
          exact le_refl _
      · simp [mqtt_handle_reconnect_queue]
      · simp [mqtt_handle_reconnect_queue]

theorem publish_session_enqueue_queue_le (s : MQTTState) (id : Nat) (topic payload : String)
    (oracle : List Bool) (h : s.publish_queue.length ≤ MQTT_MAX_FAILED_PUBLISH_QUEUE) :
    (publish_session_enqueue s id topic payload oracle).2.1.publish_queue.length ≤
      MQTT_MAX_FAILED_PUBLISH_QUEUE := by
  unfold publish_session_enqueue
  split
  · next hlt => simpa using hlt
  · exact h

theorem publish_session_queue_le (s : MQTTState) (env : MQTTEnv) (oracle : List Bool)
    (session : Option GrindSession)
    (h : s.publish_queue.length ≤ MQTT_MAX_FAILED_PUBLISH_QUEUE) :
    (publish_session s env oracle session).2.1.publish_queue.length ≤
      MQTT_MAX_FAILED_PUBLISH_QUEUE := by
  unfold publish_session
  cases session with
  | none => exact h
  | some sess =>
      dsimp only
      split
      · exact h
      · split
        · exact h
        · split
          · split
            · exact h
            · exact publish_session_enqueue_queue_le _ _ _ _ _ h
          · exact publish_session_enqueue_queue_le _ _ _ _ _ h

theorem mqtt_disable_queue (s : MQTTState) :
    (mqtt_disable s).publish_queue = [] ∨ (mqtt_disable s).publish_queue = s.publish_queue := by
  by_cases h : s.enabled
  · left
    unfold mqtt_disable mqttPrefsPutEnabled
    simp only [h, Bool.not_true, Bool.false_eq_true, if_false]
  · right
    simp only [Bool.not_eq_true] at h
    rw [mqtt_disable_not_enabled s h]

theorem mqtt_init_queue (s : MQTTState) (store : Prefs) :
    (mqtt_init s store).publish_queue = s.publish_queue := rfl

theorem mqtt_set_broker_config_queue (s : MQTTState) (b : String) (p : Nat) (u pw : String) :
    (mqtt_set_broker_config s b p u pw).2.publish_queue = s.publish_queue := by
  unfold mqtt_set_broker_config mqttPrefsPutConfig
  split
  · rfl
  · split
    · rfl
    · split
      · rfl
      · split
        · rfl
        · split
          · rfl
          · dsimp only
            split <;> rfl

theorem mqtt_disable_queue_le (s : MQTTState) :
    (mqtt_disable s).publish_queue.length ≤ s.publish_queue.length := by
  rcases mqtt_disable_queue s with h | h <;> simp [h]

theorem mqtt_clear_broker_config_queue_le (s : MQTTState) :
    (mqtt_clear_broker_config s).publish_queue.length ≤ s.publish_queue.length := by
  unfold mqtt_clear_broker_config
  dsimp only
  have key : ∀ (t : MQTTState), t.publish_queue = s.publish_queue →
      (if s.enabled = true then mqtt_disable t else t).publish_queue.length ≤
        s.publish_queue.length := by
    intro t ht
    split
    · exact le_trans (mqtt_disable_queue_le t) (le_of_eq (by rw [ht]))
    · exact le_of_eq (by rw [ht])
  rcases hp : s.prefs with _ | p <;> simp only [hp] <;> exact key _ rfl

theorem mqtt_step_queue_invariant (s : MQTTState) (op : MQTTOp)
    (h : s.publish_queue.length ≤ MQTT_MAX_FAILED_PUBLISH_QUEUE) :
    (mqtt_step s op).publish_queue.length ≤ MQTT_MAX_FAILED_PUBLISH_QUEUE := by
  cases op with
  | init store => simpa [mqtt_step, mqtt_init_queue] using h
  | enable env now oracle => simpa [mqtt_step, mqtt_enable_queue] using h
  | disable => exact le_trans (mqtt_disable_queue_le s) h
  | handle env now oracle =>
      exact le_trans (mqtt_handle_queue_le s env now oracle) h
  | setBrokerConfig b p u pw => simpa [mqtt_step, mqtt_set_broker_config_queue] using h
  | clearBrokerConfig => exact le_trans (mqtt_clear_broker_config_queue_le s) h
  | publishSession env oracle session => exact publish_session_queue_le s env oracle session h
  | testConnection env oracle => exact h

/-- C1: the retry queue is bounded by the capacity 10 in every reachable
state — the constructor starts it empty and every public operation
preserves `length ≤ MQTT_MAX_FAILED_PUBLISH_QUEUE` — and an enqueue
attempt by `publish_session` while 10 entries are pending (any call on an
enabled manager with a serializable session that does not return an
immediate `SUCCESS`) returns the dropped result (`FAILED`), leaves the
queue containing the original 10 entries in their original order, and
evicts no older entry. -/
theorem retry_queue_bounded :
    mqttInitialState.publish_queue.length ≤ MQTT_MAX_FAILED_PUBLISH_QUEUE ∧
    (∀ (s : MQTTState) (op : MQTTOp),
       s.publish_queue.length ≤ MQTT_MAX_FAILED_PUBLISH_QUEUE →
       (mqtt_step s op).publish_queue.length ≤ MQTT_MAX_FAILED_PUBLISH_QUEUE) ∧
    (∀ (s : MQTTState) (env : MQTTEnv) (oracle : List Bool) (sess : GrindSession)
       (payload : String),
       s.enabled = true → sess.json = some payload →
       s.publish_queue.length = MQTT_MAX_FAILED_PUBLISH_QUEUE →
       (publish_session s env oracle (some sess)).1 = .SUCCESS ∨
       ((publish_session s env oracle (some sess)).1 = .FAILED ∧
        (publish_session s env oracle (some sess)).2.1.publish_queue = s.publish_queue)) := by
  refine ⟨by decide, mqtt_step_queue_invariant, ?_⟩
  intro s env oracle sess payload hen hjson hfull
  unfold publish_session
  dsimp only
  rw [hjson, hen]
  simp only [Bool.not_true, Bool.false_eq_true, if_false]
  have hnotlt : ¬s.publish_queue.length < MQTT_MAX_FAILED_PUBLISH_QUEUE := by omega
  split
  · split
    · left; rfl
    · right
      unfold publish_session_enqueue
      rw [if_neg hnotlt]
      exact ⟨rfl, rfl⟩
  · right
    unfold publish_session_enqueue
    rw [if_neg hnotlt]
    exact ⟨rfl, rfl⟩

def c1FullState : MQTTState :=
  { mqttInitialState with
    enabled := true, status := .DISCONNECTED,
    publish_queue := List.replicate 10 ⟨"t", "p", 0⟩ }

def c1Env : MQTTEnv :=
  { wifiConnected := true, clientConnected := true, connectResult := true,
    bufferSize := 256, device_id := "d" }

theorem retry_queue_bounded_witness :
    (publish_session c1FullState c1Env [] (some ⟨7, some "x"⟩)).1 = .SUCCESS ∨
    ((publish_session c1FullState c1Env [] (some ⟨7, some "x"⟩)).1 = .FAILED ∧
     (publish_session c1FullState c1Env [] (some ⟨7, some "x"⟩)).2.1.publish_queue =
       c1FullState.publish_queue) :=
  retry_queue_bounded.2.2 c1FullState c1Env [] ⟨7, some "x"⟩ "x" rfl rfl (by decide)

theorem ppq_loop_length_ge : ∀ (fuel : Nat) (q : List PendingPublish) (c : Bool) (b : Nat)
    (oracle : List Bool), q.length - fuel ≤ (ppq_loop fuel q c b oracle).1.length := by
  intro fuel
  induction fuel with
  | zero => intro q c b oracle; simp [ppq_loop]
  | succ n ih =>
      intro q c b oracle
      cases q with
      | nil => simp [ppq_loop]
      | cons p rest =>
          simp only [ppq_loop]
          split
          · have := ih rest c b (mqtt_publish c b oracle p.topic p.payload MQTT_RETAIN_SESSIONS).2
            simp only [List.length_cons]
            omega
          · split
            · have := ih rest c b
                (mqtt_publish c b oracle p.topic p.payload MQTT_RETAIN_SESSIONS).2
              simp only [List.length_cons]
              omega
            · have := ih (rest ++ [{ p with retry_count := p.retry_count + 1 }]) c b
                (mqtt_publish c b oracle p.topic p.payload MQTT_RETAIN_SESSIONS).2
              simp only [List.length_append, List.length_cons] at this ⊢
              omega

/-- The spec's per-entry drain rule, stated from the specification's words
for comparison with the loop: a successful transport publish removes the
entry, a failed one increments its counter and keeps it unless the counter
reached the ceiling 3, in which case it is removed. -/
def drain_entry_rule (p : PendingPublish) (ok : Bool) : Option PendingPublish :=
  if ok then none
  else if p.retry_count + 1 ≥ 3 then none
  else some { p with retry_count := p.retry_count + 1 }

theorem ppq_loop_three_characterization (p1 p2 p3 : PendingPublish)
    (rest : List PendingPublish) (conn : Bool) (bsz : Nat) (oracle : List Bool) :
    ppq_loop 3 (p1 :: p2 :: p3 :: rest) conn bsz oracle =
      (rest
         ++ (drain_entry_rule p1
              (mqtt_publish conn bsz oracle p1.topic p1.payload MQTT_RETAIN_SESSIONS).1).toList
         ++ (drain_entry_rule p2
              (mqtt_publish conn bsz
                (mqtt_publish conn bsz oracle p1.topic p1.payload MQTT_RETAIN_SESSIONS).2
                p2.topic p2.payload MQTT_RETAIN_SESSIONS).1).toList
         ++ (drain_entry_rule p3
              (mqtt_publish conn bsz
                (mqtt_publish conn bsz
                  (mqtt_publish conn bsz oracle p1.topic p1.payload MQTT_RETAIN_SESSIONS).2
                  p2.topic p2.payload MQTT_RETAIN_SESSIONS).2
                p3.topic p3.payload MQTT_RETAIN_SESSIONS).1).toList,
       (mqtt_publish conn bsz
         (mqtt_publish conn bsz
           (mqtt_publish conn bsz oracle p1.topic p1.payload MQTT_RETAIN_SESSIONS).2
           p2.topic p2.payload MQTT_RETAIN_SESSIONS).2
         p3.topic p3.payload MQTT_RETAIN_SESSIONS).2) := by
  rcases h1 : mqtt_publish conn bsz oracle p1.topic p1.payload MQTT_RETAIN_SESSIONS
    with ⟨ok1, or1⟩
  rcases h2 : mqtt_publish conn bsz or1 p2.topic p2.payload MQTT_RETAIN_SESSIONS
    with ⟨ok2, or2⟩
  rcases h3 : mqtt_publish conn bsz or2 p3.topic p3.payload MQTT_RETAIN_SESSIONS
    with ⟨ok3, or3⟩
  simp only [ppq_loop, h1, h2, h3]
  cases ok1 <;> cases ok2 <;> cases ok3 <;>
    by_cases hc1 : p1.retry_count + 1 ≥ 3 <;>
    by_cases hc2 : p2.retry_count + 1 ≥ 3 <;>
    by_cases hc3 : p3.retry_count + 1 ≥ 3 <;>
    simp [drain_entry_rule, hc1, hc2, hc3, h1, h2, h3, List.append_assoc]

theorem mqtt_handle_connected_drains (s : MQTTState) (env : MQTTEnv) (now : Nat)
    (oracle : List Bool) (hen : s.enabled = true) (hst : s.status = .CONNECTED)
    (hw : env.wifiConnected = true) (hc : env.clientConnected = true) :
    mqtt_handle s env now oracle = process_publish_queue s env oracle := by
  unfold mqtt_handle
  rw [hen, hw]
  simp only [Bool.not_true, Bool.false_eq_true, if_false, hst, hc]

/-- C2: while the broker status is `Connected` (and the transport still
reports connected), one tick is exactly one queue-draining pass; a pass
removes at most 3 entries (and never grows the queue); and a pass over a
queue holding at least 3 entries processes exactly its first 3 entries,
where a successful transport publish removes the entry, a failed one
increments its retry counter and requeues it at the back, and an entry
whose counter reaches the ceiling 3 is removed on that failure and never
retried again. -/
theorem drain_per_tick :
    (∀ (s : MQTTState) (env : MQTTEnv) (now : Nat) (oracle : List Bool),
       s.enabled = true → s.status = .CONNECTED → env.wifiConnected = true →
       env.clientConnected = true →
       mqtt_handle s env now oracle = process_publish_queue s env oracle) ∧
    (∀ (s : MQTTState) (env : MQTTEnv) (oracle : List Bool),
       s.publish_queue.length - 3 ≤
         (process_publish_queue s env oracle).1.publish_queue.length ∧
       (process_publish_queue s env oracle).1.publish_queue.length ≤
         s.publish_queue.length) ∧
    (∀ (p1 p2 p3 : PendingPublish) (rest : List PendingPublish) (conn : Bool)
       (bsz : Nat) (oracle : List Bool),
       ppq_loop 3 (p1 :: p2 :: p3 :: rest) conn bsz oracle =
         (rest
            ++ (drain_entry_rule p1
                 (mqtt_publish conn bsz oracle p1.topic p1.payload MQTT_RETAIN_SESSIONS).1).toList
            ++ (drain_entry_rule p2
                 (mqtt_publish conn bsz
                   (mqtt_publish conn bsz oracle p1.topic p1.payload MQTT_RETAIN_SESSIONS).2
                   p2.topic p2.payload MQTT_RETAIN_SESSIONS).1).toList
            ++ (drain_entry_rule p3
                 (mqtt_publish conn bsz
                   (mqtt_publish conn bsz
                     (mqtt_publish conn bsz oracle p1.topic p1.payload MQTT_RETAIN_SESSIONS).2
                     p2.topic p2.payload MQTT_RETAIN_SESSIONS).2
                   p3.topic p3.payload MQTT_RETAIN_SESSIONS).1).toList,
          (mqtt_publish conn bsz
            (mqtt_publish conn bsz
              (mqtt_publish conn bsz oracle p1.topic p1.payload MQTT_RETAIN_SESSIONS).2
              p2.topic p2.payload MQTT_RETAIN_SESSIONS).2
            p3.topic p3.payload MQTT_RETAIN_SESSIONS).2)) := by
  refine ⟨mqtt_handle_connected_drains, ?_, ppq_loop_three_characterization⟩
  intro s env oracle
  constructor
  · unfold process_publish_queue
    split
    · exact Nat.sub_le _ _
    · have := ppq_loop_length_ge 3 s.publish_queue env.clientConnected env.bufferSize oracle
      simpa using this
  · exact process_publish_queue_length_le s env oracle

def c2State : MQTTState :=
  { mqttInitialState with
    enabled := true, status := .CONNECTED, broker := "b",
    publish_queue := [⟨"t1", "p1", 0⟩, ⟨"t2", "p2", 2⟩] }

def c2Env : MQTTEnv :=
  { wifiConnected := true, clientConnected := true, connectResult := true,
    bufferSize := 256, device_id := "d" }

theorem drain_per_tick_witness :
    mqtt_handle c2State c2Env 0 [true, false] =
      process_publish_queue c2State c2Env [true, false] :=
  drain_per_tick.1 c2State c2Env 0 [true, false] rfl rfl rfl rfl

/-- C4 (amended): queue draining is silent — `handle` (and its
`process_publish_queue`) performs no publish-result callback invocation at
all, so an entry whose retried transport publish succeeds is removed
without any success report; the only report a session ever gets through
the registered callback is the single event emitted by `publish_session`
itself (exactly once per call, keyed by the caller-supplied session id,
carrying that call's returned result `SUCCESS`/`QUEUED`/`FAILED`). -/
theorem publish_callback_semantics :
    (∀ (s : MQTTState) (env : MQTTEnv) (now : Nat) (oracle : List Bool),
       (mqtt_handle s env now oracle).2.2 = []) ∧
    (∀ (s : MQTTState) (env : MQTTEnv) (oracle : List Bool),
       (process_publish_queue s env oracle).2.2 = []) ∧
    (∀ (s : MQTTState) (env : MQTTEnv) (oracle : List Bool) (sess : GrindSession)
       (payload : String),
       s.enabled = true → sess.json = some payload → s.has_publish_callback = true →
       (publish_session s env oracle (some sess)).2.2.2 =
         [⟨sess.session_id, (publish_session s env oracle (some sess)).1⟩]) := by
  have hppq : ∀ (s : MQTTState) (env : MQTTEnv) (oracle : List Bool),
      (process_publish_queue s env oracle).2.2 = [] := by
    intro s env oracle
    unfold process_publish_queue
    split <;> rfl
  refine ⟨?_, hppq, ?_⟩
  · intro s env now oracle
    unfold mqtt_handle
    split
    · rfl
    · split
      · rfl
      · split
        · rfl
        · split
          · exact hppq _ env oracle
          · split <;> rfl
        · split
          · rfl
          · exact hppq _ env oracle
        · rfl
        · rfl
  · intro s env oracle sess payload hen hjson hcb
    rcases hr : publish_session s env oracle (some sess) with ⟨res, s2, or2, evs⟩
    unfold publish_session publish_session_enqueue at hr
    dsimp only at hr
    rw [hjson, hen] at hr
    simp only [Bool.not_true, Bool.false_eq_true, if_false] at hr
    split at hr
    · split at hr
      · cases hr
        simp [pubEvents, hcb]
      · split at hr
        · cases hr
          simp [pubEvents, hcb]
        · cases hr
          simp [pubEvents, hcb]
    · split at hr
      · cases hr
        simp [pubEvents, hcb]
      · cases hr
        simp [pubEvents, hcb]

def c4Env : MQTTEnv :=
  { wifiConnected := true, clientConnected := true, connectResult := true,
    bufferSize := 1024, device_id := "dev" }

def c4Start : MQTTState :=
  { mqttInitialState with
    enabled := true, status := .CONNECTED, broker := "b",
    has_publish_callback := true }

def c4r1 : MQTTPublishResult × MQTTState × List Bool × List PubEvent :=
  publish_session c4Start c4Env [false] (some ⟨1, some "p1"⟩)

def c4r2 : MQTTPublishResult × MQTTState × List Bool × List PubEvent :=
  publish_session c4r1.2.1 c4Env [false] (some ⟨2, some "p2"⟩)

def c4r3 : MQTTPublishResult × MQTTState × List Bool × List PubEvent :=
  publish_session c4r2.2.1 c4Env [false] (some ⟨3, some "p3"⟩)

def c4tick : MQTTState × List Bool × List PubEvent :=
  mqtt_handle c4r3.2.1 c4Env 0 [true, true, true]

/-- All publish-result callback invocations of the C4 scenario: three
publishes that fail at the transport and queue, then the tick on which all
three retried publishes succeed. -/
def c4Events : List PubEvent :=
  c4r1.2.2.2 ++ c4r2.2.2.2 ++ c4r3.2.2.2 ++ c4tick.2.2

/-- C4 counterexample: in the spec's scenario — broker connected, 3
publishes fail at the transport and return `QUEUED`, the next tick retries
each once and the transport now succeeds — the queue indeed ends empty,
but the callback trace of the whole run is just the three `QUEUED` events
from `publish_session`: no session is ever reported `SUCCESS` through the
callback, refuting the claimed exactly-once success reports. -/
theorem queued_success_no_callback_counterexample :
    c4r1.1 = .QUEUED ∧ c4r2.1 = .QUEUED ∧ c4r3.1 = .QUEUED ∧
    c4r3.2.1.publish_queue.length = 3 ∧
    c4tick.1.publish_queue = [] ∧
    c4Events = [⟨1, .QUEUED⟩, ⟨2, .QUEUED⟩, ⟨3, .QUEUED⟩] ∧
    (⟨1, .SUCCESS⟩ : PubEvent) ∉ c4Events ∧
    (⟨2, .SUCCESS⟩ : PubEvent) ∉ c4Events ∧
    (⟨3, .SUCCESS⟩ : PubEvent) ∉ c4Events := by
  decide

theorem publish_callback_semantics_witness :
    (publish_session c4Start c4Env [true] (some ⟨9, some "pp"⟩)).2.2.2 =
      [⟨9, (publish_session c4Start c4Env [true] (some ⟨9, some "pp"⟩)).1⟩] :=
  publish_callback_semantics.2.2 c4Start c4Env [true] ⟨9, some "pp"⟩ "pp" rfl rfl rfl

theorem index_of_from_eq_none : ∀ (l : List Char) (c : Char) (i : Nat), c ∉ l →
    index_of_from l c i = none := by
  intro l c
  induction l with
  | nil => intro i _; rfl
  | cons a as ih =>
      intro i h
      simp only [List.mem_cons, not_or] at h
      unfold index_of_from
      rw [if_neg (fun he => h.1 he.symm)]
      exact ih (i + 1) h.2

/-- C6 (amended): for a broker-config provisioning string `host:port|rest`
where `rest` holds no further separator, `parse_mqtt_config` interprets
the entire remainder as the USERNAME (trimmed) and leaves only the
password empty — the remainder is not discarded (stated for host `h`,
port `1`, matching the source's "treat entire remainder as username"). -/
theorem mqtt_config_remainder_becomes_username (r : List Char) (h : '|' ∉ r) :
    parse_mqtt_config ('h' :: ':' :: '1' :: '|' :: r) =
      some (['h'], 1, trimChars r, []) := by
  have hnone : index_of r '|' = -1 := by
    unfold index_of
    rw [index_of_from_eq_none r '|' 0 h]
  unfold parse_mqtt_config
  simp only [show index_of ('h' :: ':' :: '1' :: '|' :: r) '|' = 3 from rfl,
    show List.take (Int.toNat 3) ('h' :: ':' :: '1' :: '|' :: r) = ['h', ':', '1'] from rfl,
    show List.drop (Int.toNat 3 + 1) ('h' :: ':' :: '1' :: '|' :: r) = r from rfl,
    show index_of ['h', ':', '1'] ':' = 1 from rfl, hnone]
  norm_num
  decide

/-- C6 counterexample: the input `h:1|bob` has the form `host:port|rest`
with no further separator in the remainder, yet the parser produces
username `bob`, not an empty username — the remainder is interpreted as a
username, refuting "the entire remainder is discarded". -/
theorem mqtt_config_remainder_counterexample :
    parse_mqtt_config ("h:1|bob".data) = some ("h".data, 1, "bob".data, []) ∧
    "bob".data ≠ ([] : List Char) := by
  decide

theorem mqtt_config_remainder_witness :
    parse_mqtt_config ('h' :: ':' :: '1' :: '|' :: "ann".data) =
      some (['h'], 1, trimChars "ann".data, []) :=
  mqtt_config_remainder_becomes_username ("ann".data) (by decide)

theorem rx_feed_buffer_invariant : ∀ (input buf : List Char),
    buf.length ≤ MAX_RX_BUFFER_SIZE - 1 →
    (rx_feed buf input).1.length ≤ MAX_RX_BUFFER_SIZE - 1 := by
  intro input
  induction input with
  | nil => intro buf h; exact h
  | cons c cs ih =>
      intro buf h
      unfold rx_feed
      dsimp only
      apply ih
      unfold rx_step
      split
      · split
        · simp
        · exact h
      · split
        · exact h
        · split
          · next hlt => simp only [List.length_append, List.length_cons, List.length_nil]; omega
          · simp

theorem rx_feed_append (buf xs ys : List Char) :
    rx_feed buf (xs ++ ys) =
      ((rx_feed (rx_feed buf xs).1 ys).1,
       (rx_feed buf xs).2 ++ (rx_feed (rx_feed buf xs).1 ys).2) := by
  induction xs generalizing buf with
  | nil => simp [rx_feed]
  | cons c cs ih =>
      simp only [List.cons_append, rx_feed, List.append_eq]
      rw [ih]
      simp [List.append_assoc]

theorem rx_feed_regular_fill : ∀ (cs buf : List Char),
    (∀ c ∈ cs, c ≠ '\n' ∧ c ≠ '\r') →
    buf.length + cs.length ≤ MAX_RX_BUFFER_SIZE - 1 →
    rx_feed buf cs = (buf ++ cs, []) := by
  intro cs
  induction cs with
  | nil => intro buf _ _; simp [rx_feed]
  | cons c cs ih =>
      intro buf hreg hlen
      have hc := hreg c (List.mem_cons_self c cs)
      have hlen' : buf.length < MAX_RX_BUFFER_SIZE - 1 := by
        simp only [List.length_cons] at hlen
        omega
      unfold rx_feed rx_step
      rw [if_neg hc.1, if_neg hc.2, if_pos hlen']
      dsimp only
      rw [ih (buf ++ [c]) (fun x hx => hreg x (List.mem_cons_of_mem c hx))
        (by simp only [List.length_append, List.length_cons, List.length_nil] at hlen ⊢; omega)]
      simp

theorem rx_feed_overflow_clear (buf : List Char) (c : Char)
    (hc : c ≠ '\n' ∧ c ≠ '\r') (hlen : ¬buf.length < MAX_RX_BUFFER_SIZE - 1) :
    rx_feed buf [c] = ([], []) := by
  unfold rx_feed rx_step
  rw [if_neg hc.1, if_neg hc.2, if_neg hlen]
  simp [rx_feed]

theorem rx_feed_newline_delivers (buf : List Char) (h : buf.length > 0) :
    rx_feed buf ['\n'] = ([], [buf]) := by
  unfold rx_feed rx_step
  rw [if_pos rfl, if_pos h]
  simp [rx_feed]

/-- The valid 50-byte frame of the C7 scenario. -/
def c7Frame : List Char :=
  "ABCDEFGHIJKLMNOPQRSTUVWXYZabcdefghijklmnopqrstuvwx".data

/-- The C7 scenario input: a 2000-byte line with no terminator followed by
the terminated 50-byte frame. -/
def c7Input : List Char := List.replicate 2000 'a' ++ c7Frame ++ ['\n']

theorem c7_run_eval : rx_feed [] c7Input = ([], [['w', 'x']]) := by
  have hregA : ∀ (n : Nat), ∀ c ∈ List.replicate n 'a', c ≠ '\n' ∧ c ≠ '\r' := by
    intro n c hc
    rw [List.eq_of_mem_replicate hc]
    decide
  have hflen : c7Frame.length = 50 := rfl
  have h511 : rx_feed [] (List.replicate 511 'a') = (List.replicate 511 'a', []) := by
    rw [rx_feed_regular_fill _ _ (hregA 511)
      (by simp only [List.length_nil, List.length_replicate, MAX_RX_BUFFER_SIZE]; omega)]
    rw [List.nil_append]
  have hstep2 : rx_feed (List.replicate 511 'a') ['a'] = ([], []) := by
    apply rx_feed_overflow_clear _ _ (by decide)
    simp only [List.length_replicate, MAX_RX_BUFFER_SIZE]
    omega
  have h464 : rx_feed [] (List.replicate 464 'a') = (List.replicate 464 'a', []) := by
    rw [rx_feed_regular_fill _ _ (hregA 464)
      (by simp only [List.length_nil, List.length_replicate, MAX_RX_BUFFER_SIZE]; omega)]
    rw [List.nil_append]
  have htake47reg : ∀ c ∈ List.take 47 c7Frame, c ≠ '\n' ∧ c ≠ '\r' := by decide
  have h4 : rx_feed (List.replicate 464 'a') (List.take 47 c7Frame) =
      (List.replicate 464 'a' ++ List.take 47 c7Frame, []) :=
    rx_feed_regular_fill _ _ htake47reg
      (by simp only [List.length_replicate, List.length_take, hflen, MAX_RX_BUFFER_SIZE]; omega)
  have h5 : rx_feed (List.replicate 464 'a' ++ List.take 47 c7Frame) ['v'] = ([], []) := by
    apply rx_feed_overflow_clear _ _ (by decide)
    simp only [List.length_append, List.length_replicate, List.length_take, hflen,
      MAX_RX_BUFFER_SIZE]
    omega
  have h6 : rx_feed [] ['w', 'x'] = (['w', 'x'], []) := by decide
  have h7 : rx_feed ['w', 'x'] ['\n'] = ([], [['w', 'x']]) := by decide
  have hF : c7Frame = List.take 47 c7Frame ++ (['v'] ++ ['w', 'x']) := by decide
  have hshape : c7Input =
      List.replicate 511 'a' ++ (['a'] ++ (List.replicate 511 'a' ++ (['a'] ++
        (List.replicate 511 'a' ++ (['a'] ++ (List.replicate 464 'a' ++
          (List.take 47 c7Frame ++ (['v'] ++ (['w', 'x'] ++ ['\n']))))))))) := by
    unfold c7Input
    conv_lhs => rw [show (2000 : Nat) = 511 + (1 + (511 + (1 + (511 + (1 + 464))))) from rfl]
    simp only [List.replicate_add, List.replicate_one, List.append_assoc]
    conv_lhs => rw [hF]
    simp only [List.append_assoc]
  rw [hshape]
  simp only [rx_feed_append, h511, hstep2, h464, h4, h5, h6, h7, List.append_nil,
    List.nil_append]

/-- C7 (amended): the relay bridge's receive buffer never grows past
`MAX_RX_BUFFER_SIZE - 1` bytes (so never past the maximum frame length),
and the receive path is a total function (no crash); but in the scenario —
a 2000-byte line with no terminator followed by a valid terminated 50-byte
frame — no frame is parsed successfully: the overflow discard clears the
buffer mid-line instead of skipping to the next terminator, so leftover
junk swallows the head of the valid frame and the single line delivered to
the parser is the frame's 2-byte tail, not the frame. -/
theorem relay_rx_bounded_and_scenario :
    (∀ (input buf : List Char), buf.length ≤ MAX_RX_BUFFER_SIZE - 1 →
       (rx_feed buf input).1.length ≤ MAX_RX_BUFFER_SIZE - 1) ∧
    rx_feed [] c7Input = ([], [['w', 'x']]) ∧
    c7Frame.length = 50 ∧ (['w', 'x'] : List Char) ≠ c7Frame :=
  ⟨rx_feed_buffer_invariant, c7_run_eval, rfl, by decide⟩

theorem relay_rx_bounded_witness :
    (['a', 'b'] : List Char).length ≤ MAX_RX_BUFFER_SIZE - 1 ∧
    (rx_feed ['a', 'b'] ['c', '\n']).1.length ≤ MAX_RX_BUFFER_SIZE - 1 :=
  ⟨by decide, relay_rx_bounded_and_scenario.1 ['c', '\n'] ['a', 'b'] (by decide)⟩

/-- C7 counterexample: feeding the 2000-byte unterminated line followed by
the valid terminated 50-byte frame yields exactly one delivered line — the
frame's 2-byte tail `wx` — so the parser never receives the second frame
intact, refuting "exactly one successfully parsed frame (the second one)". -/
theorem relay_second_frame_never_parsed_counterexample :
    rx_feed [] c7Input = ([], [['w', 'x']]) ∧
    (rx_feed [] c7Input).2 ≠ [c7Frame] ∧
    c7Frame ∉ (rx_feed [] c7Input).2 ∧
    c7Frame.length = 50 ∧
    c7Input.length = 2051 := by
  refine ⟨c7_run_eval, ?_, ?_, rfl, ?_⟩
  · rw [c7_run_eval]
    decide
  · rw [c7_run_eval]
    decide
  · simp only [c7Input, List.length_append, List.length_replicate,
      show c7Frame.length = 50 from rfl, List.length_cons, List.length_nil]

theorem millisElapsed_add (a i : Nat) (_ha : a < UINT32_MOD) (hi : i < UINT32_MOD) :
    millisElapsed (a + i) a = i := by
  unfold millisElapsed UINT32_MOD at *
  omega

/-- An environment in which the broker connect always fails while WiFi
stays up: every reconnect attempt of the run fails. -/
def mqttFailEnv : MQTTEnv :=
  { wifiConnected := true, clientConnected := false, connectResult := false,
    bufferSize := 256, device_id := "d" }

/-- The MQTT manager right after `enable()` started the first (failing)
connection attempt at time 0. -/
def mqttBackoffStart : MQTTState :=
  (mqtt_enable { mqttInitialState with broker := "b" } mqttFailEnv 0 []).1

/-- The run of consecutive failed MQTT reconnect attempts: step `k + 1`
invokes `handle_reconnect` at the first instant the `k`-th applied
interval has elapsed. -/
def mqttFailRun : Nat → MQTTState
  | 0 => mqttBackoffStart
  | k + 1 =>
      (mqtt_handle_reconnect (mqttFailRun k) mqttFailEnv
        ((mqttFailRun k).last_connection_attempt + (mqttFailRun k).reconnect_interval)
        []).1

theorem mqtt_handle_reconnect_fires (s : MQTTState)
    (hlast : s.last_connection_attempt < UINT32_MOD)
    (hint : s.reconnect_interval < UINT32_MOD)
    (hb : mqtt_has_broker_config s = true) (hst : s.status = .CONNECTING) :
    (mqtt_handle_reconnect s mqttFailEnv
        (s.last_connection_attempt + s.reconnect_interval) []).1 =
      { s with reconnect_attempts := s.reconnect_attempts + 1,
               reconnect_interval :=
                 min (s.reconnect_interval * 2) MQTT_MAX_RECONNECT_INTERVAL_MS,
               last_connection_attempt :=
                 (s.last_connection_attempt + s.reconnect_interval) % UINT32_MOD } := by
  obtain ⟨pf, br, po, un, pw, en, st, la, ri, ra, q, cb⟩ := s
  simp only [mqtt_has_broker_config] at hb
  simp only at hst hlast hint
  subst hst
  unfold mqtt_handle_reconnect
  rw [millisElapsed_add _ _ hlast hint, if_neg (lt_irrefl _)]
  unfold mqtt_connect
  simp only [mqtt_has_broker_config, hb, Bool.not_true, Bool.false_eq_true, if_false,
    mqttFailEnv, Bool.not_false, if_true, mqtt_update_status_eq]

theorem mqttFailRun_invariant : ∀ k : Nat,
    (mqttFailRun k).reconnect_interval =
      min (MQTT_RECONNECT_INTERVAL_MS * 2 ^ k) MQTT_MAX_RECONNECT_INTERVAL_MS ∧
    (mqttFailRun k).reconnect_attempts = k ∧
    (mqttFailRun k).last_connection_attempt < UINT32_MOD ∧
    mqtt_has_broker_config (mqttFailRun k) = true ∧
    (mqttFailRun k).status = .CONNECTING := by
  intro k
  induction k with
  | zero => refine ⟨by decide, by decide, by decide, by decide, by decide⟩
  | succ k ih =>
      obtain ⟨hint, hatt, hlast, hb, hst⟩ := ih
      have hintlt : (mqttFailRun k).reconnect_interval < UINT32_MOD := by
        rw [hint]
        unfold MQTT_RECONNECT_INTERVAL_MS MQTT_MAX_RECONNECT_INTERVAL_MS UINT32_MOD
        omega
      have hstep := mqtt_handle_reconnect_fires (mqttFailRun k) hlast hintlt hb hst
      simp only [mqttFailRun, hstep]
      refine ⟨?_, ?_, ?_, ?_, ?_⟩
      · rw [hint]
        unfold MQTT_RECONNECT_INTERVAL_MS MQTT_MAX_RECONNECT_INTERVAL_MS
        rw [pow_succ]
        omega
      · rw [hatt]
      · exact Nat.mod_lt _ (by unfold UINT32_MOD; omega)
      · simpa [mqtt_has_broker_config] using hb
      · exact hst

/-- The WiFi manager right after `enable()` (with stored credentials)
started the first connection attempt at time 0. -/
def wifiBackoffStart : WifiState :=
  wifi_enable { wifiInitialState with ssid := "s", password := "p" } 0

/-- The run of consecutive failed WiFi reconnect attempts, stepping at the
first instant each interval elapses. -/
def wifiFailRun : Nat → WifiState
  | 0 => wifiBackoffStart
  | k + 1 =>
      wifi_handle_reconnect (wifiFailRun k)
        ((wifiFailRun k).last_connection_attempt + (wifiFailRun k).reconnect_interval)

theorem wifiFailRun_frozen : ∀ k : Nat, 4 ≤ k → wifiFailRun k = wifiFailRun 4 := by
  intro k hk
  induction k, hk using Nat.le_induction with
  | base => rfl
  | succ n hn ih =>
      simp only [wifiFailRun, ih]
      decide

/-- C3 (amended): along a run of consecutive failed connection attempts
after `enable()`, the MQTT manager applies the reconnect interval
`min(B*2^k, C)` before its `k+1`-st reconnect attempt for every `k`, with
B = 5000 ms and C = 30000 ms yielding 5000, 10000, 20000, 30000, 30000 for
the first five; the WiFi manager applies the same formula but only for its
first `WIFI_MAX_RECONNECT_ATTEMPTS = 3` reconnect attempts — from the 4th
reconnect opportunity on, `handle_reconnect` performs no further attempt
and the state freezes in `Error`. -/
theorem reconnect_backoff_intervals :
    (∀ k : Nat,
       (mqttFailRun k).reconnect_interval =
         min (MQTT_RECONNECT_INTERVAL_MS * 2 ^ k) MQTT_MAX_RECONNECT_INTERVAL_MS ∧
       (mqttFailRun k).reconnect_attempts = k) ∧
    ((mqttFailRun 0).reconnect_interval = 5000 ∧
     (mqttFailRun 1).reconnect_interval = 10000 ∧
     (mqttFailRun 2).reconnect_interval = 20000 ∧
     (mqttFailRun 3).reconnect_interval = 30000 ∧
     (mqttFailRun 4).reconnect_interval = 30000) ∧
    (∀ k : Nat, k ≤ 3 →
       (wifiFailRun k).reconnect_interval =
         min (WIFI_RECONNECT_INTERVAL_MS * 2 ^ k) WIFI_MAX_RECONNECT_INTERVAL_MS ∧
       (wifiFailRun k).reconnect_attempts = k) ∧
    (∀ k : Nat, 4 ≤ k → wifiFailRun k = wifiFailRun 4) ∧
    ((wifiFailRun 4).status = .ERROR ∧ (wifiFailRun 4).reconnect_attempts = 3 ∧
     (wifiFailRun 4).last_connection_attempt =
       (wifiFailRun 3).last_connection_attempt) := by
  refine ⟨?_, ?_, ?_, wifiFailRun_frozen, ?_⟩
  · intro k
    exact ⟨(mqttFailRun_invariant k).1, (mqttFailRun_invariant k).2.1⟩
  · refine ⟨?_, ?_, ?_, ?_, ?_⟩ <;> decide
  · intro k hk
    interval_cases k <;> exact ⟨by decide, by decide⟩
  · refine ⟨by decide, by decide, by decide⟩

theorem reconnect_backoff_witness :
    (wifiFailRun 2).reconnect_interval =
      min (WIFI_RECONNECT_INTERVAL_MS * 2 ^ 2) WIFI_MAX_RECONNECT_INTERVAL_MS ∧
    (wifiFailRun 2).reconnect_attempts = 2 :=
  reconnect_backoff_intervals.2.2.1 2 (by decide)

/-- C3 counterexample: the WiFi manager never applies five backoff
intervals. With `WIFI_MAX_RECONNECT_ATTEMPTS = 3`, after the 3rd failed
reconnect attempt (intervals 5000, 10000, 20000 ms applied) the 4th and
5th reconnect opportunities perform no connection attempt: the attempt
counter stays at 3, the status is `Error`, and the last-attempt timestamp
freezes — refuting the claimed five-interval sequence `5000, 10000, 20000,
30000, 30000` for the WiFi manager. -/
theorem wifi_backoff_stops_counterexample :
    (wifiFailRun 3).reconnect_attempts = 3 ∧
    (wifiFailRun 5).reconnect_attempts = 3 ∧
    (wifiFailRun 5).status = .ERROR ∧
    (wifiFailRun 5).last_connection_attempt =
      (wifiFailRun 3).last_connection_attempt ∧
    WIFI_MAX_RECONNECT_ATTEMPTS = 3 := by
  decide
